import Mathlib

/-!
Verification of the task-lifecycle core of a personal task-manager backend.

The development shallowly embeds the Python services of the repository
(`src/services/task_service.py`, `history_service.py`, `scheduler_service.py`,
`src/utils/recurrence_calculator.py`, `src/models/task.py`,
`src/models/task_history.py`) as executable Lean definitions:

* `DateTime` models a Python `datetime`: a calendar tuple plus an optional
  fixed timezone offset (`tz = none` models a naive datetime).  Python's
  `timedelta(days = n)` addition on valid dates is day-by-day calendar
  succession (`addDays`), and `dateutil.relativedelta(months = 1)` /
  `relativedelta(years = n)` are calendar-aware addition that clamps the day
  to the last valid day of the target month (`addMonthsClamped`,
  `addYearsClamped`).  Chronological comparison of same-timezone datetimes is
  the lexicographic comparison of the calendar fields, linearised by `dtRank`.
* The database session is modelled as an explicit `DB` state (task rows,
  history rows, id counters) threaded through each service function.
  `datetime.utcnow()` is passed in as an explicit `now` argument.
* A Python call that can raise is modelled with `Except`/`Option`, and an
  external persistence failure that the service code catches with
  `try/except` is modelled by an explicit boolean argument saying whether
  that write succeeded.  A call that the source makes crash unconditionally
  — an unbound name or a read of a schema attribute that does not exist —
  is modelled by the raising outcome it produces (`ServiceResult.raised`),
  with the store unchanged since nothing was committed.
-/

namespace TodoSpec

/-- A Python `datetime`: calendar fields plus `tzinfo`, where `tz = none`
models a naive datetime and `tz = some z` a fixed UTC offset of `z` minutes. -/
structure DateTime where
  year : Nat
  month : Nat
  day : Nat
  hour : Nat
  minute : Nat
  second : Nat
  tz : Option Int
deriving DecidableEq, Repr

/-- Gregorian leap-year rule. -/
def isLeapYear (y : Nat) : Bool :=
  y % 4 = 0 && (y % 100 ≠ 0 || y % 400 = 0)

/-- Number of days of month `m` of year `y` (months are 1-based). -/
def daysInMonth (y m : Nat) : Nat :=
  if m = 2 then (if isLeapYear y then 29 else 28)
  else if m = 4 ∨ m = 6 ∨ m = 9 ∨ m = 11 then 30
  else 31

/-- A well-formed calendar datetime (what Python's `datetime` constructor
accepts). -/
def DateTime.Valid (d : DateTime) : Prop :=
  1 ≤ d.month ∧ d.month ≤ 12 ∧ 1 ≤ d.day ∧ d.day ≤ daysInMonth d.year d.month ∧
  d.hour ≤ 23 ∧ d.minute ≤ 59 ∧ d.second ≤ 59

instance (d : DateTime) : Decidable d.Valid := by
  unfold DateTime.Valid; infer_instance

/-- Linearisation of the calendar fields: for valid datetimes, `dtRank` is
strictly monotone in chronological order, so `dtRank a < dtRank b` is the
chronological `a < b` of two same-timezone datetimes. -/
def dtRank (d : DateTime) : Nat :=
  ((((d.year * 16 + d.month) * 64 + d.day) * 32 + d.hour) * 64 + d.minute) * 64
    + d.second

/-- Chronological strict order on same-timezone datetimes (the order used by
`retention_until < cutoff` comparisons in the SQL layer). -/
def dtLt (a b : DateTime) : Prop := dtRank a < dtRank b

instance (a b : DateTime) : Decidable (dtLt a b) := by
  unfold dtLt; infer_instance

/-- Calendar successor of a datetime: `d + timedelta(days = 1)`. -/
def nextDay (d : DateTime) : DateTime :=
  if d.day < daysInMonth d.year d.month then { d with day := d.day + 1 }
  else if d.month < 12 then { d with month := d.month + 1, day := 1 }
  else { d with year := d.year + 1, month := 1, day := 1 }

/-- Model of `d + timedelta(days = n)` on the calendar model. -/
def addDays : Nat → DateTime → DateTime
  | 0, d => d
  | n + 1, d => addDays n (nextDay d)

/-- Model of `d + relativedelta(months = 1)`: step to the next month and clamp the day
to the last valid day of the target month (Jan 31 → Feb 28/29). -/
def addMonthsClamped (d : DateTime) : DateTime :=
  if d.month = 12 then
    { d with year := d.year + 1, month := 1,
             day := min d.day (daysInMonth (d.year + 1) 1) }
  else
    { d with month := d.month + 1,
             day := min d.day (daysInMonth d.year (d.month + 1)) }

/-- Model of `d + relativedelta(years = n)`: add to the year and clamp the day to the
last valid day of the target month (Feb 29 → Feb 28 in a non-leap year). -/
def addYearsClamped (n : Nat) (d : DateTime) : DateTime :=
  { d with year := d.year + n,
           day := min d.day (daysInMonth (d.year + n) d.month) }

theorem daysInMonth_le_31 (y m : Nat) : daysInMonth y m ≤ 31 := by
  unfold daysInMonth
  split
  · split <;> omega
  · split <;> omega

theorem one_le_daysInMonth (y m : Nat) : 1 ≤ daysInMonth y m := by
  unfold daysInMonth
  split
  · split <;> omega
  · split <;> omega

theorem nextDay_tz (d : DateTime) : (nextDay d).tz = d.tz := by
  unfold nextDay
  split
  · rfl
  · split <;> rfl

theorem addDays_tz (n : Nat) (d : DateTime) : (addDays n d).tz = d.tz := by
  induction n generalizing d with
  | zero => rfl
  | succ k ih => rw [addDays, ih, nextDay_tz]

theorem addMonthsClamped_tz (d : DateTime) : (addMonthsClamped d).tz = d.tz := by
  unfold addMonthsClamped
  split <;> rfl

theorem addYearsClamped_tz (n : Nat) (d : DateTime) :
    (addYearsClamped n d).tz = d.tz := rfl

theorem nextDay_valid (d : DateTime) (hv : d.Valid) : (nextDay d).Valid := by
  obtain ⟨h1, h2, h3, h4, h5, h6, h7⟩ := hv
  have ha := one_le_daysInMonth d.year (d.month + 1)
  have hb := one_le_daysInMonth (d.year + 1) 1
  unfold nextDay
  split
  · simp only [DateTime.Valid]
    omega
  · split <;> (simp only [DateTime.Valid]; omega)

theorem addDays_valid (n : Nat) (d : DateTime) (hv : d.Valid) :
    (addDays n d).Valid := by
  induction n generalizing d with
  | zero => exact hv
  | succ k ih => exact ih (nextDay d) (nextDay_valid d hv)

theorem dtRank_lt_nextDay (d : DateTime) (hv : d.Valid) :
    dtRank d < dtRank (nextDay d) := by
  obtain ⟨h1, h2, h3, h4, h5, h6, h7⟩ := hv
  have hdm := daysInMonth_le_31 d.year d.month
  unfold nextDay
  split
  · simp only [dtRank]; omega
  · split
    · simp only [dtRank]; omega
    · simp only [dtRank]; omega

theorem dtRank_le_addDays (n : Nat) (d : DateTime) (hv : d.Valid) :
    dtRank d ≤ dtRank (addDays n d) := by
  induction n generalizing d with
  | zero => exact Nat.le_refl _
  | succ k ih =>
    rw [addDays]
    exact Nat.le_trans (Nat.le_of_lt (dtRank_lt_nextDay d hv))
      (ih (nextDay d) (nextDay_valid d hv))

theorem dtRank_lt_addDays (n : Nat) (hn : 0 < n) (d : DateTime) (hv : d.Valid) :
    dtRank d < dtRank (addDays n d) := by
  cases n with
  | zero => omega
  | succ k =>
    rw [addDays]
    exact Nat.lt_of_lt_of_le (dtRank_lt_nextDay d hv)
      (dtRank_le_addDays k (nextDay d) (nextDay_valid d hv))

theorem dtRank_lt_addMonthsClamped (d : DateTime) (hv : d.Valid) :
    dtRank d < dtRank (addMonthsClamped d) := by
  obtain ⟨h1, h2, h3, h4, h5, h6, h7⟩ := hv
  have hdm := daysInMonth_le_31 d.year d.month
  unfold addMonthsClamped
  split
  · have hd1 := one_le_daysInMonth (d.year + 1) 1
    simp only [dtRank]; omega
  · have hd1 := one_le_daysInMonth d.year (d.month + 1)
    simp only [dtRank]; omega

theorem dtRank_lt_addYearsClamped (n : Nat) (hn : 0 < n) (d : DateTime)
    (hv : d.Valid) : dtRank d < dtRank (addYearsClamped n d) := by
  obtain ⟨h1, h2, h3, h4, h5, h6, h7⟩ := hv
  have hdm := daysInMonth_le_31 d.year d.month
  have hd1 := one_le_daysInMonth (d.year + n) d.month
  unfold addYearsClamped
  simp only [dtRank]
  have : d.year * 16 + 16 ≤ (d.year + n) * 16 := by omega
  omega

namespace RecurrencePattern

/-- Embeds `RecurrencePattern.all_patterns` from `recurrence_calculator.py`. -/
def all_patterns : List String :=
  ["daily", "weekly", "bi-weekly", "monthly", "yearly"]

/-- Embeds `RecurrencePattern.is_valid`: membership test in the pattern list. -/
def is_valid (pattern : String) : Bool := all_patterns.contains pattern

end RecurrencePattern

namespace RecurrenceCalculator

/-- Embeds `RecurrenceCalculator.calculate_next_occurrence` from
`recurrence_calculator.py`.  Follows the source's validation order: empty
pattern, unknown pattern, then the naive-datetime check (the source's
`if not current_due` None check has no counterpart for a total argument).
The five pattern branches return `timedelta`/`relativedelta` additions. -/
def calculate_next_occurrence (current_due : DateTime) (pattern : String) :
    Except String DateTime :=
  if pattern = "" then .error "Recurrence pattern cannot be empty"
  else if ¬ RecurrencePattern.is_valid pattern then
    .error "Unknown recurrence pattern"
  else if current_due.tz = none then
    .error "current_due must be timezone-aware"
  else if pattern = "daily" then .ok (addDays 1 current_due)
  else if pattern = "weekly" then .ok (addDays 7 current_due)
  else if pattern = "bi-weekly" then .ok (addDays 14 current_due)
  else if pattern = "monthly" then .ok (addMonthsClamped current_due)
  else if pattern = "yearly" then .ok (addYearsClamped 1 current_due)
  else .error "Unexpected pattern"

end RecurrenceCalculator

/-! ## Data model (`src/models/task.py`, `src/models/task_history.py`)

The `Task` record carries the union of the columns of the two `Task` model
files of the repository (the `hf_deployment/src` model plus the extended
JSON columns the service code also assigns: category, tags, status,
priority, shopping_list, recursion, subitems).  JSON-valued columns are
modelled as lists of strings; their contents never matter to any claim. -/

/-- A row of the `tasks` table. -/
structure Task where
  id : Nat
  user_id : Nat
  title : String
  description : String
  completed : Bool
  created_at : DateTime
  updated_at : DateTime
  client_id : Option String
  version : Nat
  due_date : Option DateTime
  recurrence_pattern : Option String
  is_recurring : Bool
  reminder_minutes : Nat
  next_occurrence : Option DateTime
  subitems : Option (List String)
  category : Option String
  tags : Option (List String)
  status : Option String
  priority : Option String
  shopping_list : Option (List String)
  recursion : Option String
deriving DecidableEq, Repr

/-- Embeds the `TaskUpdate` patch schema of `hf_deployment/src/models/task.py`:
it defines only `title`, `description`, `completed` and `subitems`.  The
service's update code also reads seven further attributes (category, tags,
status, priority, shopping_list, recursion, due_date) that this schema does
not define — reading them raises `AttributeError` at run time. -/
structure TaskUpdate where
  title : Option String := none
  description : Option String := none
  completed : Option Bool := none
  subitems : Option (List String) := none
deriving DecidableEq, Repr

/-- Embeds the `HistoryActionType` enumeration from `task_history.py`. -/
inductive HistoryActionType where
  | CREATED
  | UPDATED
  | COMPLETED
  | DELETED
  | ARCHIVED
  | RESTORED
deriving DecidableEq, BEq, Repr

/-- A row of the `task_history` table: immutable snapshot of a task at the
moment of a lifecycle action. -/
structure TaskHistory where
  id : Nat
  user_id : Nat
  original_task_id : Nat
  title : String
  description : String
  completed : Bool
  due_date : Option DateTime
  recurrence_pattern : Option String
  action_type : HistoryActionType
  action_date : DateTime
  action_by : Nat
  can_restore : Bool
  retention_until : DateTime
deriving DecidableEq, Repr

/-- Embeds `TaskHistory.from_task` composed with the constructor's
`__init__`/`validate_action_type` normalisation: `can_restore` is true
exactly for DELETED actions (COMPLETED entries are never restorable, and a
DELETED entry has `can_restore` auto-set), `action_date` is the current
time, and `retention_until = action_date + relativedelta(years = 2)`. -/
def TaskHistory.from_task (next_id : Nat) (task : Task)
    (action_type : HistoryActionType) (action_by : Nat) (now : DateTime) :
    TaskHistory :=
  { id := next_id
    user_id := task.user_id
    original_task_id := task.id
    title := task.title
    description := task.description
    completed := task.completed
    due_date := task.due_date
    recurrence_pattern := task.recurrence_pattern
    action_type := action_type
    action_date := now
    action_by := action_by
    can_restore := action_type == .DELETED
    retention_until := addYearsClamped 2 now }

/-- The persistent store seen by one database session: the `tasks` and
`task_history` tables plus the id sequences that assign primary keys. -/
structure DB where
  tasks : List Task
  history : List TaskHistory
  next_task_id : Nat
  next_history_id : Nat
deriving DecidableEq, Repr

/-! ## Services (`task_service.py`, `history_service.py`)

Each service function takes the session state `DB` explicitly and returns
the new state.  `datetime.utcnow()` is the explicit `now` argument.  Where
the Python code wraps an external write in `try/except`, the embedding takes
a boolean saying whether that write succeeded. -/

/-- Embeds `TaskService.get_task_by_id`: the task with this id owned by this user. -/
def get_task_by_id (db : DB) (task_id user_id : Nat) : Option Task :=
  db.tasks.find? (fun t => t.id == task_id && t.user_id == user_id)

/-- Embeds `HistoryService.create_history_entry`: build the snapshot row and persist
it (the id sequence assigns the primary key). -/
def create_history_entry (db : DB) (task : Task)
    (action_type : HistoryActionType) (action_by : Nat) (now : DateTime) :
    TaskHistory × DB :=
  let h := TaskHistory.from_task db.next_history_id task action_type action_by now
  (h, { db with history := db.history ++ [h],
                next_history_id := db.next_history_id + 1 })

/-- Replace the stored row of a (mutated) task by id — the effect of
`session.add(task); session.commit()` on a loaded row. -/
def replace_task (db : DB) (task : Task) : DB :=
  { db with tasks := db.tasks.map (fun u => if u.id == task.id then task else u) }

/-- Embeds `Task.calculate_next_occurrence` from `task.py`: only recurring tasks
with a due date and pattern have a next occurrence; delegates to the
calculator. -/
def Task.calculate_next_occurrence (t : Task) : Except String DateTime :=
  match t.due_date, t.recurrence_pattern with
  | some dd, some p =>
      if t.is_recurring then RecurrenceCalculator.calculate_next_occurrence dd p
      else .error "Can only calculate next occurrence for recurring tasks"
  | _, _ => .error "Can only calculate next occurrence for recurring tasks"

/-- Embeds `TaskService.create_recurring_instance`: validate, compute the next
occurrence from the completed task's due date and pattern, and persist a new
task with the same title/description/pattern/reminder, `due_date` at the
next occurrence, `completed = false`, `next_occurrence = None` (the source's
comment: calculated on next completion) and `client_id` cleared.  The
trailing best-effort notification scheduling touches only the job store and
is caught on failure, so it does not affect this state.  Errors model the
`ValueError`s raised by the source. -/
def create_recurring_instance (db : DB) (original_task : Task) (now : DateTime) :
    Except String (Task × DB) :=
  if ¬ original_task.is_recurring then .error "not a recurring task"
  else if original_task.due_date = none ∨ original_task.recurrence_pattern = none then
    .error "missing due_date or recurrence_pattern"
  else
    match original_task.calculate_next_occurrence with
    | .error e => .error e
    | .ok next_due =>
        let new_task : Task :=
          { id := db.next_task_id
            user_id := original_task.user_id
            title := original_task.title
            description := original_task.description
            completed := false
            created_at := now
            updated_at := now
            client_id := none
            version := 1
            due_date := some next_due
            recurrence_pattern := original_task.recurrence_pattern
            is_recurring := true
            reminder_minutes := original_task.reminder_minutes
            next_occurrence := none
            subitems := none
            category := none
            tags := none
            status := none
            priority := none
            shopping_list := none
            recursion := none }
        .ok (new_task, { db with tasks := db.tasks ++ [new_task],
                                 next_task_id := db.next_task_id + 1 })

/-- A Python exception raised by a service function before any commit: the
store is left unchanged and the exception propagates to the caller. -/
inductive PyError where
  | nameError
  | attributeError
deriving DecidableEq, Repr

/-- Result of `TaskService.complete_task` / `TaskService.update_task`:
`notFound` models the `None` return for a missing or foreign task, `raised`
an uncaught (or re-raised after rollback) exception, with the unchanged
store. -/
inductive ServiceResult where
  | notFound (db : DB)
  | raised (err : PyError) (db : DB)
deriving DecidableEq, Repr

/-- Embeds `TaskService.complete_task` (`hf_deployment/src`).  Unlike
`update_task` and `delete_task`, this function has no local
`from .history_service import HistoryService` /
`from src.models.task_history import HistoryActionType` imports, and the
module top imports neither name, so the history write (line 317) hits an
unbound name: every call on a found task mutates the loaded row only in
memory, then raises `NameError`, which the `except` clause catches, rolls
back (discarding the mutation) and re-raises.  The success return — and
with it the recurring-instance block after the `try` — is unreachable; only
the not-found `None` return completes normally. -/
def complete_task (db : DB) (task_id user_id : Nat) : ServiceResult :=
  match get_task_by_id db task_id user_id with
  | none => .notFound db
  | some _ => .raised .nameError db

/-- Embeds `TaskService.update_task` (`hf_deployment/src`).  After applying
`title`/`description`/`completed`/`subitems` to the loaded row in memory,
the code reads `task_data.category` (line 117) — an attribute the
`TaskUpdate` schema does not define — so every call on a found task raises
`AttributeError` before `session.commit()`: nothing is persisted, the store
is unchanged and the exception propagates.  The unconditional version bump,
the best-effort COMPLETED history entry and the recurring-instance creation
further down are unreachable. -/
def update_task (db : DB) (task_id user_id : Nat) (task_data : TaskUpdate) :
    ServiceResult :=
  match get_task_by_id db task_id user_id with
  | none => .notFound db
  | some _ => .raised .attributeError db

/-- Embeds `TaskService.delete_task`: find the task, best-effort write a DELETED
history entry (`try/except`: a failure is logged and the deletion proceeds),
then remove the task row and commit.  Returns whether a task was deleted. -/
def delete_task (db : DB) (task_id user_id : Nat) (now : DateTime)
    (history_write_ok : Bool) : Bool × DB :=
  match get_task_by_id db task_id user_id with
  | none => (false, db)
  | some task =>
      let db1 := if history_write_ok then
          (create_history_entry db task .DELETED user_id now).2
        else db
      (true, { db1 with tasks := db1.tasks.filter (fun t => ! (t.id == task.id)) })

/-- Errors of `HistoryService.restore_deleted_task`: `notFound` models the
`None` return (mapped to HTTP 404 by the router) and `cannotRestore` the
raised `ValueError` (mapped to HTTP 400). -/
inductive RestoreError where
  | notFound
  | cannotRestore
deriving DecidableEq, Repr

/-- Embeds `HistoryService.restore_deleted_task`: look up the entry by id and
owner; refuse when `can_restore` is false; otherwise persist a new task
built from the snapshot (default `reminder_minutes = 15`,
`next_occurrence = None`, `version = 1`, `is_recurring` derived from the
snapshot's pattern) and flip the consumed entry's `can_restore` to false. -/
def restore_deleted_task (db : DB) (history_id user_id : Nat) (now : DateTime) :
    Except RestoreError (Task × DB) :=
  match db.history.find? (fun h => h.id == history_id && h.user_id == user_id) with
  | none => .error .notFound
  | some history =>
      if ! history.can_restore then .error .cannotRestore
      else
        let restored_task : Task :=
          { id := db.next_task_id
            user_id := history.user_id
            title := history.title
            description := history.description
            completed := history.completed
            created_at := now
            updated_at := now
            client_id := none
            version := 1
            due_date := history.due_date
            recurrence_pattern := history.recurrence_pattern
            is_recurring := history.recurrence_pattern.isSome
            reminder_minutes := 15
            next_occurrence := none
            subitems := none
            category := none
            tags := none
            status := none
            priority := none
            shopping_list := none
            recursion := none }
        let db1 : DB :=
          { db with tasks := db.tasks ++ [restored_task],
                    next_task_id := db.next_task_id + 1,
                    history := db.history.map (fun h =>
                      if h.id == history.id then { h with can_restore := false }
                      else h) }
        .ok (restored_task, db1)

/-- Embeds `HistoryService.cleanup_old_history`: delete every entry whose
`retention_until` is strictly before the cutoff and return the count. -/
def cleanup_old_history (db : DB) (cutoff_date : DateTime) : Nat × DB :=
  let old_entries := db.history.filter
    (fun e => dtRank e.retention_until < dtRank cutoff_date)
  let kept := db.history.filter
    (fun e => ! (dtRank e.retention_until < dtRank cutoff_date : Bool))
  (old_entries.length, { db with history := kept })

/-! ## Scheduler (`scheduler_service.py`)

APScheduler's persistent job store is a list of jobs keyed by a string job
id; `add_job` with `replace_existing = True` replaces any job with the same
id, and `remove_job` raises when the id is absent.  Absolute timestamps are
modelled as minutes on an integer timeline (UTC datetimes are
order-isomorphic to it, and `timedelta(minutes = m)` is subtraction). -/

/-- A persisted APScheduler job. -/
structure Job where
  id : String
  run_at : Int
deriving DecidableEq, Repr

/-- The durable job store. -/
structure JobStore where
  jobs : List Job
deriving DecidableEq, Repr

/-- Embeds `scheduler.add_job(..., id = job_id, replace_existing = True)`. -/
def add_job (s : JobStore) (job_id : String) (run_at : Int) : JobStore :=
  { jobs := s.jobs.filter (fun j => ! (j.id == job_id))
              ++ [{ id := job_id, run_at := run_at }] }

/-- Embeds `scheduler.remove_job(job_id)`: raises when no such job exists. -/
def remove_job (s : JobStore) (job_id : String) : Except Unit JobStore :=
  if s.jobs.any (fun j => j.id == job_id) then
    .ok { jobs := s.jobs.filter (fun j => ! (j.id == job_id)) }
  else .error ()

/-- The reminder job id `f'notification_{task_id}_{reminder_minutes}'` used
by `schedule_notification` — derived from the task id and the reminder lead
time, not from a job kind. -/
def reminder_job_id (task_id reminder_minutes : Nat) : String :=
  "notification_" ++ toString task_id ++ "_" ++ toString reminder_minutes

/-- The due-time job id `f'notification_{task_id}_due'`. -/
def due_job_id (task_id : Nat) : String :=
  "notification_" ++ toString task_id ++ "_due"

/-- Embeds `SchedulerService.schedule_notification`: upsert a reminder job at
`due_date - reminder_minutes` when that instant is still in the future, and
independently a due-time job at `due_date` when it is in the future;
past-dated candidates are silently skipped. -/
def schedule_notification (s : JobStore) (now : Int) (task_id : Nat)
    (due_date : Int) (reminder_minutes : Nat) : JobStore :=
  let reminder_time := due_date - (reminder_minutes : Int)
  let s1 := if reminder_time > now then
      add_job s (reminder_job_id task_id reminder_minutes) reminder_time
    else s
  if due_date > now then add_job s1 (due_job_id task_id) due_date else s1

/-- Embeds `SchedulerService.cancel_notification`: try to remove the two job ids
`notification_{task_id}_15` (the source comment: default reminder) and
`notification_{task_id}_due`, ignoring a missing job (`try/except: pass`). -/
def cancel_notification (s : JobStore) (task_id : Nat) : JobStore :=
  [reminder_job_id task_id 15, due_job_id task_id].foldl
    (fun st jid => match remove_job st jid with
      | .ok st1 => st1
      | .error _ => st) s

/-! ## Helper lemmas -/

instance {ε : Type u} {α : Type v} [DecidableEq ε] [DecidableEq α] :
    DecidableEq (Except ε α) := fun x y =>
  match x, y with
  | .ok a, .ok b =>
      if h : a = b then isTrue (by rw [h])
      else isFalse (fun hc => h (by injection hc))
  | .error a, .error b =>
      if h : a = b then isTrue (by rw [h])
      else isFalse (fun hc => h (by injection hc))
  | .ok _, .error _ => isFalse (fun hc => Except.noConfusion hc)
  | .error _, .ok _ => isFalse (fun hc => Except.noConfusion hc)

theorem length_filter_add_length_filter_not {α : Type} (l : List α) (p : α → Bool) :
    (l.filter p).length + (l.filter (fun a => ! p a)).length = l.length := by
  induction l with
  | nil => rfl
  | cons a tl ih =>
    cases hpa : p a <;> simp [List.filter_cons, hpa, ← ih] <;> omega

/-- Mapping the `can_restore` flip over the history rows commutes with the
key lookup. -/
theorem find?_map_flip (l : List TaskHistory) (hid uid tgt : Nat)
    (h : TaskHistory)
    (hf : l.find? (fun e => e.id == hid && e.user_id == uid) = some h) :
    (l.map (fun e => if e.id == tgt then { e with can_restore := false } else e)).find?
        (fun e => e.id == hid && e.user_id == uid) =
      some (if h.id == tgt then { h with can_restore := false } else h) := by
  rw [List.find?_map]
  have hcomp : ((fun e : TaskHistory => e.id == hid && e.user_id == uid) ∘
      (fun e => if e.id == tgt then { e with can_restore := false } else e)) =
      (fun e : TaskHistory => e.id == hid && e.user_id == uid) := by
    funext x
    by_cases hx : (x.id == tgt) = true <;> simp [Function.comp, hx]
  rw [hcomp, hf]
  rfl

/-! ## Concrete fixtures used by witnesses and counterexamples -/

/-- 2026-03-10 09:00:00 UTC. -/
def sampleNow : DateTime := ⟨2026, 3, 10, 9, 0, 0, some 0⟩

/-- 2026-03-20 10:00:00 UTC. -/
def sampleDue : DateTime := ⟨2026, 3, 20, 10, 0, 0, some 0⟩

/-- A pending weekly-recurring task with a non-default reminder lead time. -/
def sampleTask : Task :=
  { id := 1, user_id := 1, title := "buy milk", description := "",
    completed := false, created_at := sampleNow, updated_at := sampleNow,
    client_id := some "c-1", version := 1, due_date := some sampleDue,
    recurrence_pattern := some "weekly", is_recurring := true,
    reminder_minutes := 30, next_occurrence := none, subitems := none,
    category := none, tags := none, status := none, priority := none,
    shopping_list := none, recursion := none }

/-- A store holding just `sampleTask`. -/
def sampleDB : DB := ⟨[sampleTask], [], 2, 1⟩

/-- The instance the factory `create_recurring_instance` builds from
`sampleTask` at `sampleNow`: same content, due one week later,
`next_occurrence` cleared, `client_id` dropped. -/
def sampleInstance : Task :=
  { id := 2, user_id := 1, title := "buy milk", description := "",
    completed := false, created_at := sampleNow, updated_at := sampleNow,
    client_id := none, version := 1, due_date := some (addDays 7 sampleDue),
    recurrence_pattern := some "weekly", is_recurring := true,
    reminder_minutes := 30, next_occurrence := none, subitems := none,
    category := none, tags := none, status := none, priority := none,
    shopping_list := none, recursion := none }

/-! ## Claims -/

/-- C1: the claim says Delete removes the task row only if the DELETED
history write succeeds (fail closed).  The code instead wraps the history
write in `try/except` and deletes anyway: with the history write failing,
`delete_task` still reports success and removes the task row while no
history entry exists; with the write succeeding it records the snapshot.
This theorem evaluates `delete_task` at the failing input. -/
theorem claim_C1 :
    delete_task sampleDB 1 1 sampleNow false = (true, ⟨[], [], 2, 1⟩) ∧
    delete_task sampleDB 1 1 sampleNow true =
      (true, ⟨[], [TaskHistory.from_task 1 sampleTask .DELETED 1 sampleNow], 2, 2⟩) := by
  decide

/-- C7: the claim says the first of two stale-version updates succeeds and
bumps `version`, and the second fails with ConflictError.  In the code
neither update succeeds: every found-task update raises `AttributeError` at
`task_data.category` before `session.commit()`, so the store — and the
stored `version`, still 1 — never changes; and no optimistic-concurrency
comparison exists at all (the `TaskUpdate` schema carries no version and
`update_task` never reads one), so no ConflictError is possible either.
The theorem evaluates both sequential stale updates on the concrete
store. -/
theorem claim_C7 :
    update_task sampleDB 1 1 { title := some "v2" } =
      .raised .attributeError sampleDB ∧
    update_task sampleDB 1 1 { title := some "v3" } =
      .raised .attributeError sampleDB ∧
    (get_task_by_id sampleDB 1 1).map Task.version = some 1 := by
  decide

/-- C8: the claim says CancelNotifications removes both of the task's jobs
regardless of the `reminder_minutes` used at scheduling, with job ids
derived from `(task_id, job_kind)`.  In the code the reminder job id is
derived from `(task_id, reminder_minutes)`, while cancellation removes only
the literal ids `notification_{id}_15` and `notification_{id}_due`: a
reminder scheduled with a 30-minute lead survives cancellation.  The
idempotence half of the claim does hold (a missing job is ignored). -/
theorem claim_C8 :
    (schedule_notification ⟨[]⟩ 0 1 100 30).jobs =
      [⟨"notification_1_30", 70⟩, ⟨"notification_1_due", 100⟩] ∧
    (cancel_notification (schedule_notification ⟨[]⟩ 0 1 100 30) 1).jobs =
      [⟨"notification_1_30", 70⟩] ∧
    (cancel_notification (schedule_notification ⟨[]⟩ 0 1 100 15) 1).jobs = [] ∧
    cancel_notification ⟨[]⟩ 1 = ⟨[]⟩ := by
  decide

/-- A non-recurring task that is already completed. -/
def doneTask : Task :=
  { id := 3, user_id := 1, title := "done", description := "",
    completed := true, created_at := sampleNow, updated_at := sampleNow,
    client_id := none, version := 1, due_date := none,
    recurrence_pattern := none, is_recurring := false, reminder_minutes := 15,
    next_occurrence := none, subitems := none, category := none, tags := none,
    status := none, priority := none, shopping_list := none, recursion := none }

/-- A store holding just the already-completed `doneTask`. -/
def dbDone : DB := ⟨[doneTask], [], 4, 1⟩

/-- C2: the claim says Complete transitions `completed` false→true and
fails with ConflictError exactly when the task is already completed.  In
the code `complete_task` never completes anything: the names
`HistoryService`/`HistoryActionType` are unbound inside the function (the
local imports exist only in `update_task` and `delete_task`), so every call
on a found task — pending or already completed — raises `NameError` after
rollback, contradicting the function's own docstring ("Returns: Completed
task or None if not found").  No ConflictError exists on this path. -/
theorem claim_C2 (db : DB) (task_id user_id : Nat) (t : Task)
    (h : get_task_by_id db task_id user_id = some t) :
    complete_task db task_id user_id = .raised .nameError db := by
  unfold complete_task
  rw [h]

/-- C2 witness: both the pending task and the already-completed task make
`complete_task` raise, leaving the store unchanged in both cases. -/
theorem claim_C2_witness :
    (get_task_by_id sampleDB 1 1 = some sampleTask ∧
     complete_task sampleDB 1 1 = .raised .nameError sampleDB) ∧
    (get_task_by_id dbDone 3 1 = some doneTask ∧
     complete_task dbDone 3 1 = .raised .nameError dbDone) :=
  ⟨⟨rfl, claim_C2 sampleDB 1 1 sampleTask rfl⟩,
   ⟨rfl, claim_C2 dbDone 3 1 doneTask rfl⟩⟩

/-- C9: the retention purge deletes exactly the history entries with
`retention_until` strictly before the cutoff: the returned count plus the
surviving rows account for every row, a row survives iff it was present and
not strictly older than the cutoff, a row whose `retention_until` equals the
cutoff is retained, and the task table is untouched. -/
theorem claim_C9 (db : DB) (cutoff : DateTime) :
    (cleanup_old_history db cutoff).1 +
        ((cleanup_old_history db cutoff).2).history.length = db.history.length ∧
    (∀ e, e ∈ ((cleanup_old_history db cutoff).2).history ↔
      (e ∈ db.history ∧ ¬ dtLt e.retention_until cutoff)) ∧
    (∀ e, e ∈ db.history → e.retention_until = cutoff →
      e ∈ ((cleanup_old_history db cutoff).2).history) ∧
    ((cleanup_old_history db cutoff).2).tasks = db.tasks := by
  refine ⟨?_, ?_, ?_, rfl⟩
  · simp only [cleanup_old_history]
    exact length_filter_add_length_filter_not db.history _
  · intro e
    simp [cleanup_old_history, List.mem_filter, dtLt]
  · intro e he heq
    simp [cleanup_old_history, List.mem_filter, he, heq, dtLt]

/-- A history row long past its retention window. -/
def histOld : TaskHistory :=
  { id := 1, user_id := 1, original_task_id := 1, title := "a",
    description := "", completed := false, due_date := none,
    recurrence_pattern := none, action_type := .DELETED,
    action_date := ⟨2020, 1, 1, 0, 0, 0, some 0⟩, action_by := 1,
    can_restore := true, retention_until := ⟨2022, 1, 1, 0, 0, 0, some 0⟩ }

/-- A history row whose `retention_until` equals the purge cutoff. -/
def histAtCutoff : TaskHistory :=
  { histOld with id := 2, retention_until := ⟨2026, 1, 1, 0, 0, 0, some 0⟩ }

/-- The store holding the two history rows of the purge fixture. -/
def dbHist : DB := ⟨[], [histOld, histAtCutoff], 1, 3⟩

/-- C9 witness: purging the concrete two-row store at the 2026-01-01 cutoff
keeps the row whose `retention_until` equals the cutoff. -/
theorem claim_C9_witness :
    (histAtCutoff ∈ dbHist.history ∧
     histAtCutoff.retention_until = ⟨2026, 1, 1, 0, 0, 0, some 0⟩) ∧
    histAtCutoff ∈
      ((cleanup_old_history dbHist ⟨2026, 1, 1, 0, 0, 0, some 0⟩).2).history :=
  ⟨⟨by decide, rfl⟩,
   (claim_C9 dbHist ⟨2026, 1, 1, 0, 0, 0, some 0⟩).2.2.1 histAtCutoff
     (by decide) rfl⟩

/-- C10: a task deleted with a successful history write and then restored
from that history entry always comes back with the default
`reminder_minutes = 15` and `next_occurrence = None`, whatever the deleted
task's original values were, because the history snapshot captures neither
field.  The freshness hypothesis says the id sequence has not yet issued the
new entry's id. -/
theorem claim_C10 (db : DB) (task_id user_id : Nat) (now now2 : DateTime)
    (t : Task) (h : get_task_by_id db task_id user_id = some t)
    (hfresh : ∀ e ∈ db.history, e.id ≠ db.next_history_id) :
    ∃ rt db2,
      restore_deleted_task (delete_task db task_id user_id now true).2
          db.next_history_id t.user_id now2 = .ok (rt, db2) ∧
      rt.reminder_minutes = 15 ∧ rt.next_occurrence = none ∧
      rt.title = t.title ∧ rt.due_date = t.due_date := by
  have hE : (delete_task db task_id user_id now true).2.history =
      db.history ++
        [TaskHistory.from_task db.next_history_id t .DELETED user_id now] := by
    simp [delete_task, h, create_history_entry]
  have hnone : db.history.find?
      (fun e => e.id == db.next_history_id && e.user_id == t.user_id) = none := by
    rw [List.find?_eq_none]
    intro x hx
    simp only [Bool.and_eq_true, beq_iff_eq, not_and]
    intro hcon
    exact absurd hcon (hfresh x hx)
  have hfind : (delete_task db task_id user_id now true).2.history.find?
      (fun e => e.id == db.next_history_id && e.user_id == t.user_id) =
      some (TaskHistory.from_task db.next_history_id t .DELETED user_id now) := by
    rw [hE, List.find?_append, hnone]
    simp [TaskHistory.from_task]
  unfold restore_deleted_task
  rw [hfind]
  exact ⟨_, _, rfl, rfl, rfl, rfl, rfl⟩

/-- C3: the claim describes the cascade on successful completion of a
recurring task.  In the code that success never happens: `complete_task`
raises `NameError` (unbound `HistoryService`) on every found task, so the
recurring-instance block after its `try` is unreachable and no instance is
ever created on the completion path.  And even the cited factory
`create_recurring_instance`, were it reached, sets the new instance's
`next_occurrence` to `None` ("Will be calculated on next completion"),
not recomputed one step further as the claim states.  The theorem evaluates
both cited symbols at the concrete weekly task: completion raises and
leaves the store unchanged, while the factory applied directly to the same
task yields the copied instance (title, pattern, reminder, due one week
later, not completed, `client_id` cleared) with `next_occurrence = None`
rather than the claim's recomputed `addDays 14 sampleDue`. -/
theorem claim_C3 :
    complete_task sampleDB 1 1 = .raised .nameError sampleDB ∧
    create_recurring_instance sampleDB sampleTask sampleNow =
      .ok (sampleInstance, ⟨[sampleTask, sampleInstance], [], 3, 1⟩) ∧
    sampleInstance.next_occurrence = none ∧
    (none : Option DateTime) ≠ some (addDays 14 sampleDue) := by
  decide

/-- C4: restore fails with the not-found error when no history entry matches
the id and owner; fails with the validation error when `can_restore` is
false (COMPLETED entries are constructed with `can_restore = false`); on
success it persists a new task built from the snapshot and flips the
consumed entry's `can_restore`, so restoring the same entry a second time
fails with the validation error — exactly-once restore. -/
theorem claim_C4 (db : DB) (history_id user_id : Nat) (now : DateTime) :
    (db.history.find? (fun e => e.id == history_id && e.user_id == user_id) = none →
      restore_deleted_task db history_id user_id now = .error .notFound) ∧
    (∀ hh, db.history.find? (fun e => e.id == history_id && e.user_id == user_id) =
        some hh → hh.can_restore = false →
      restore_deleted_task db history_id user_id now = .error .cannotRestore) ∧
    (∀ next_id task action_by dnow,
      (TaskHistory.from_task next_id task .COMPLETED action_by dnow).can_restore
        = false) ∧
    (∀ hh, db.history.find? (fun e => e.id == history_id && e.user_id == user_id) =
        some hh → hh.can_restore = true →
      ∃ rt db1, restore_deleted_task db history_id user_id now = .ok (rt, db1) ∧
        rt.title = hh.title ∧ rt.description = hh.description ∧
        rt.completed = hh.completed ∧ rt.due_date = hh.due_date ∧
        rt.recurrence_pattern = hh.recurrence_pattern ∧
        rt.version = 1 ∧ db1.tasks = db.tasks ++ [rt] ∧
        (∀ now2, restore_deleted_task db1 history_id user_id now2 =
          .error .cannotRestore)) := by
  refine ⟨?_, ?_, ?_, ?_⟩
  · intro hf
    simp [restore_deleted_task, hf]
  · intro hh hf hcr
    simp [restore_deleted_task, hf, hcr]
  · intro next_id task action_by dnow
    rfl
  · intro hh hf hcr
    have hfind2 := find?_map_flip db.history history_id user_id hh.id hh hf
    simp only [beq_self_eq_true, if_pos] at hfind2
    simp only [restore_deleted_task, hf, hcr, Bool.not_true, Bool.false_eq_true,
      if_false]
    refine ⟨_, _, rfl, rfl, rfl, rfl, rfl, rfl, rfl, rfl, ?_⟩
    intro now2
    simp only [restore_deleted_task, hfind2, Bool.not_false, if_true]

/-- A store holding one restorable DELETED history entry. -/
def dbRestore : DB := ⟨[], [histOld], 7, 2⟩

/-- C4 witness: restoring the concrete DELETED entry succeeds once and the
second restore of the same entry fails with the validation error. -/
theorem claim_C4_witness :
    (dbRestore.history.find? (fun e => e.id == 1 && e.user_id == 1) = some histOld ∧
     histOld.can_restore = true) ∧
    ∃ rt db1, restore_deleted_task dbRestore 1 1 sampleNow = .ok (rt, db1) ∧
      rt.title = histOld.title ∧ rt.description = histOld.description ∧
      rt.completed = histOld.completed ∧ rt.due_date = histOld.due_date ∧
      rt.recurrence_pattern = histOld.recurrence_pattern ∧
      rt.version = 1 ∧ db1.tasks = dbRestore.tasks ++ [rt] ∧
      (∀ now2, restore_deleted_task db1 1 1 now2 = .error .cannotRestore) :=
  ⟨⟨rfl, rfl⟩, (claim_C4 dbRestore 1 1 sampleNow).2.2.2 histOld rfl rfl⟩

/-- C5: on every valid timezone-aware datetime and valid pattern the
calculator succeeds; the result is strictly later (in the chronological
order `dtLt`) and carries the same timezone; daily/weekly/bi-weekly add
1/7/14 calendar days, and monthly/yearly step the calendar clamping the day
to the last valid day of the target month — including the documented
rollovers Jan 31 + monthly → Feb 28 (2026 is not a leap year) and
Feb 29 2024 + yearly → Feb 28 2025. -/
theorem claim_C5 (d : DateTime) (p : String) (hv : d.Valid)
    (ha : d.tz ≠ none) (hp : RecurrencePattern.is_valid p = true) :
    (∃ r, RecurrenceCalculator.calculate_next_occurrence d p = .ok r ∧
      dtLt d r ∧ r.tz = d.tz ∧
      (p = "daily" → r = addDays 1 d) ∧
      (p = "weekly" → r = addDays 7 d) ∧
      (p = "bi-weekly" → r = addDays 14 d) ∧
      (p = "monthly" → r = addMonthsClamped d ∧
        r.day = min d.day (daysInMonth r.year r.month)) ∧
      (p = "yearly" → r = addYearsClamped 1 d ∧
        r.day = min d.day (daysInMonth r.year r.month))) ∧
    RecurrenceCalculator.calculate_next_occurrence
        ⟨2026, 1, 31, 10, 0, 0, some 0⟩ "monthly" =
      .ok ⟨2026, 2, 28, 10, 0, 0, some 0⟩ ∧
    RecurrenceCalculator.calculate_next_occurrence
        ⟨2024, 2, 29, 10, 0, 0, some 0⟩ "yearly" =
      .ok ⟨2025, 2, 28, 10, 0, 0, some 0⟩ := by
  refine ⟨?_, by decide, by decide⟩
  have hp5 : p = "daily" ∨ p = "weekly" ∨ p = "bi-weekly" ∨ p = "monthly" ∨
      p = "yearly" := by
    unfold RecurrencePattern.is_valid RecurrencePattern.all_patterns at hp
    simpa [List.contains, List.elem_iff] using hp
  rcases hp5 with h | h | h | h | h <;> subst h
  · have hcalc : RecurrenceCalculator.calculate_next_occurrence d "daily"
        = .ok (addDays 1 d) := by
      unfold RecurrenceCalculator.calculate_next_occurrence
      rw [if_neg (by decide), if_neg (by decide), if_neg ha, if_pos rfl]
    exact ⟨addDays 1 d, hcalc, dtRank_lt_addDays 1 (by omega) d hv,
      addDays_tz 1 d, fun _ => rfl, fun hq => absurd hq (by decide),
      fun hq => absurd hq (by decide), fun hq => absurd hq (by decide),
      fun hq => absurd hq (by decide)⟩
  · have hcalc : RecurrenceCalculator.calculate_next_occurrence d "weekly"
        = .ok (addDays 7 d) := by
      unfold RecurrenceCalculator.calculate_next_occurrence
      rw [if_neg (by decide), if_neg (by decide), if_neg ha,
        if_neg (by decide), if_pos rfl]
    exact ⟨addDays 7 d, hcalc, dtRank_lt_addDays 7 (by omega) d hv,
      addDays_tz 7 d, fun hq => absurd hq (by decide), fun _ => rfl,
      fun hq => absurd hq (by decide), fun hq => absurd hq (by decide),
      fun hq => absurd hq (by decide)⟩
  · have hcalc : RecurrenceCalculator.calculate_next_occurrence d "bi-weekly"
        = .ok (addDays 14 d) := by
      unfold RecurrenceCalculator.calculate_next_occurrence
      rw [if_neg (by decide), if_neg (by decide), if_neg ha,
        if_neg (by decide), if_neg (by decide), if_pos rfl]
    exact ⟨addDays 14 d, hcalc, dtRank_lt_addDays 14 (by omega) d hv,
      addDays_tz 14 d, fun hq => absurd hq (by decide),
      fun hq => absurd hq (by decide), fun _ => rfl,
      fun hq => absurd hq (by decide), fun hq => absurd hq (by decide)⟩
  · have hcalc : RecurrenceCalculator.calculate_next_occurrence d "monthly"
        = .ok (addMonthsClamped d) := by
      unfold RecurrenceCalculator.calculate_next_occurrence
      rw [if_neg (by decide), if_neg (by decide), if_neg ha,
        if_neg (by decide), if_neg (by decide), if_neg (by decide), if_pos rfl]
    refine ⟨addMonthsClamped d, hcalc, dtRank_lt_addMonthsClamped d hv,
      addMonthsClamped_tz d, fun hq => absurd hq (by decide),
      fun hq => absurd hq (by decide), fun hq => absurd hq (by decide),
      fun _ => ⟨rfl, ?_⟩, fun hq => absurd hq (by decide)⟩
    unfold addMonthsClamped
    split <;> rfl
  · have hcalc : RecurrenceCalculator.calculate_next_occurrence d "yearly"
        = .ok (addYearsClamped 1 d) := by
      unfold RecurrenceCalculator.calculate_next_occurrence
      rw [if_neg (by decide), if_neg (by decide), if_neg ha,
        if_neg (by decide), if_neg (by decide), if_neg (by decide),
        if_neg (by decide), if_pos rfl]
    exact ⟨addYearsClamped 1 d, hcalc, dtRank_lt_addYearsClamped 1 (by omega) d hv,
      addYearsClamped_tz 1 d, fun hq => absurd hq (by decide),
      fun hq => absurd hq (by decide), fun hq => absurd hq (by decide),
      fun hq => absurd hq (by decide), fun _ => ⟨rfl, rfl⟩⟩

/-- C5 witness: the theorem applied to the Jan 31 monthly rollover input. -/
theorem claim_C5_witness :
    ((⟨2026, 1, 31, 10, 0, 0, some 0⟩ : DateTime).Valid ∧
     (⟨2026, 1, 31, 10, 0, 0, some 0⟩ : DateTime).tz ≠ none ∧
     RecurrencePattern.is_valid "monthly" = true) ∧
    (∃ r, RecurrenceCalculator.calculate_next_occurrence
        ⟨2026, 1, 31, 10, 0, 0, some 0⟩ "monthly" = .ok r ∧
      dtLt ⟨2026, 1, 31, 10, 0, 0, some 0⟩ r ∧
      r.tz = (⟨2026, 1, 31, 10, 0, 0, some 0⟩ : DateTime).tz ∧
      ("monthly" = "daily" → r = addDays 1 ⟨2026, 1, 31, 10, 0, 0, some 0⟩) ∧
      ("monthly" = "weekly" → r = addDays 7 ⟨2026, 1, 31, 10, 0, 0, some 0⟩) ∧
      ("monthly" = "bi-weekly" → r = addDays 14 ⟨2026, 1, 31, 10, 0, 0, some 0⟩) ∧
      ("monthly" = "monthly" → r = addMonthsClamped ⟨2026, 1, 31, 10, 0, 0, some 0⟩ ∧
        r.day = min 31 (daysInMonth r.year r.month)) ∧
      ("monthly" = "yearly" → r = addYearsClamped 1 ⟨2026, 1, 31, 10, 0, 0, some 0⟩ ∧
        r.day = min 31 (daysInMonth r.year r.month))) ∧
    RecurrenceCalculator.calculate_next_occurrence
        ⟨2026, 1, 31, 10, 0, 0, some 0⟩ "monthly" =
      .ok ⟨2026, 2, 28, 10, 0, 0, some 0⟩ ∧
    RecurrenceCalculator.calculate_next_occurrence
        ⟨2024, 2, 29, 10, 0, 0, some 0⟩ "yearly" =
      .ok ⟨2025, 2, 28, 10, 0, 0, some 0⟩ :=
  ⟨⟨by decide, by decide, by decide⟩,
   claim_C5 ⟨2026, 1, 31, 10, 0, 0, some 0⟩ "monthly" (by decide) (by decide)
     (by decide)⟩

/-- C6: the claim says a patch flipping `completed` from false to true
triggers through Update the identical cascade as Complete, via one shared
implementation.  In the code neither path ever reaches a cascade:
`update_task` raises `AttributeError` reading `task_data.category` (an
attribute its `TaskUpdate` schema lacks) before any commit, and
`complete_task` raises `NameError` on its unbound `HistoryService` — two
distinct crashes in two separate inline code paths, with no shared
implementation and no history entry or recurring instance on either side.
For every found task the two calls fail with different exceptions. -/
theorem claim_C6 (db : DB) (task_id user_id : Nat) (t : Task)
    (h : get_task_by_id db task_id user_id = some t) :
    update_task db task_id user_id { completed := some true } =
      .raised .attributeError db ∧
    complete_task db task_id user_id = .raised .nameError db ∧
    PyError.attributeError ≠ PyError.nameError := by
  unfold update_task complete_task
  rw [h]
  exact ⟨rfl, rfl, by decide⟩

/-- C6 witness: both paths crash at the concrete store, with distinct
exceptions, leaving the store unchanged. -/
theorem claim_C6_witness :
    get_task_by_id sampleDB 1 1 = some sampleTask ∧
    update_task sampleDB 1 1 { completed := some true } =
      .raised .attributeError sampleDB ∧
    complete_task sampleDB 1 1 = .raised .nameError sampleDB ∧
    PyError.attributeError ≠ PyError.nameError :=
  ⟨rfl, claim_C6 sampleDB 1 1 sampleTask rfl⟩

/-- C10 witness: deleting the concrete recurring task (whose reminder lead
is 30 minutes) and restoring it yields a task with the default 15-minute
reminder and no `next_occurrence`. -/
theorem claim_C10_witness :
    get_task_by_id sampleDB 1 1 = some sampleTask ∧
    ∃ rt db2,
      restore_deleted_task (delete_task sampleDB 1 1 sampleNow true).2
          1 1 sampleNow = .ok (rt, db2) ∧
      rt.reminder_minutes = 15 ∧ rt.next_occurrence = none ∧
      rt.title = sampleTask.title ∧ rt.due_date = sampleTask.due_date :=
  ⟨rfl, claim_C10 sampleDB 1 1 sampleNow sampleNow sampleTask rfl
    (by intro e he _; simp [sampleDB] at he)⟩

end TodoSpec
